import Mathlib

/-!
Verification of the interview chatbot in `src/ui.py`.

The program keeps per-session state (`graph_state.answers`, `chat_history`,
and three boolean flags) and re-runs a linear flow on every interaction:
ask the next of ten fixed questions, collect a trimmed answer, and once ten
answers are collected send one prompt to an external model and post the
returned report.  The external model call is shallowly embedded as a
parameter `invoke : String → Except String String` (`.ok` is the returned
`content`, `.error` carries the string form of the raised exception).
Machine side effects (stdout debug prints, rendering) are ignored; the
chat history, which Python mutates in `st.session_state`, is passed and
returned explicitly.
-/

namespace HRBot

/-- The fixed question list (`questions`, src/ui.py lines 8-19). -/
def questions : List String :=
  [ "What is your name?",
    "What is your professional background?",
    "What are your technical skills?",
    "What are your strengths?",
    "What are your weaknesses?",
    "Describe a challenging project you completed.",
    "What are your career goals?",
    "How do you handle stress?",
    "How do you work in a team?",
    "Why should we hire you?" ]

/-- A chat-history entry: `{"role": ..., "content": ...}`. -/
structure Msg where
  role : String
  content : String
deriving DecidableEq

/-- The graph state dictionary: only key is `"answers"`. -/
structure IState where
  answers : List String
deriving DecidableEq

/-- Python `str.strip()` with no argument: remove leading and trailing
whitespace characters. -/
def pyStrip (s : String) : String :=
  ⟨((s.data.dropWhile Char.isWhitespace).reverse.dropWhile Char.isWhitespace).reverse⟩

/-- Python `str.endswith`: Boolean suffix test. -/
def myEndsWith (s p : String) : Bool :=
  decide (p.data <:+ s.data)

/-- Python `in` on strings: Boolean substring test. -/
def containsStr (s p : String) : Bool :=
  decide (p.data <:+: s.data)

/-- The duplicate-question guard of `ask_question_logic`
(src/ui.py lines 52-54): the chat history is non-empty and its last entry
is a bot entry whose content ends with the question text. -/
def dupQuestion (hist : List Msg) (question_text : String) : Bool :=
  match hist.getLast? with
  | none => false
  | some m => m.role == "bot" && myEndsWith m.content question_text

/-- `ask_question_logic` (src/ui.py lines 45-56): if fewer than ten answers
are collected, append the next question as a bot chat entry
`**Q{n+1}:** {question}` unless the last entry is already a bot entry
ending with that question text.  Returns the (unchanged) state and the
updated chat history. -/
def ask_question_logic (state : IState) (hist : List Msg) : IState × List Msg :=
  let num_answers := state.answers.length
  if num_answers < questions.length then
    let question_text := questions.getD num_answers ""
    if dupQuestion hist question_text then (state, hist)
    else (state, hist ++
      [{ role := "bot",
         content := "**Q" ++ toString (num_answers + 1) ++ ":** " ++ question_text }])
  else (state, hist)

/-- Search helper for stating prompt-content facts: drop everything up to
and including the first occurrence of `n`, or `none` when `n` does not
occur. -/
def dropThroughFirst (n : List Char) : List Char → Option (List Char)
  | [] => if n.isPrefixOf ([] : List Char) then some [] else none
  | c :: t =>
      if n.isPrefixOf (c :: t) then some ((c :: t).drop n.length)
      else dropThroughFirst n t

/-- Each needle occurs in the character list, with occurrences in the
given order (each found strictly after the end of the previous one). -/
def containsInOrderAux : List Char → List (List Char) → Bool
  | _, [] => true
  | s, n :: ns =>
      match dropThroughFirst n s with
      | none => false
      | some r => containsInOrderAux r ns

/-- Each needle string occurs in `s`, in the given order. -/
def containsInOrder (s : String) (needles : List String) : Bool :=
  containsInOrderAux s.data (needles.map String.data)

/-- The ten concrete answers from the spec's testable property for the
report prompt. -/
def demoAnswers : List String :=
  ["Alex", "Engineer", "Python", "Fast learner", "Impatient",
   "Migrated a DB under deadline", "Lead a team", "Exercise",
   "Listen first", "I deliver"]

/-- `collect_answer_logic` (src/ui.py lines 60-73): strip the raw input;
if non-empty, append it to `answers` and to the chat history as a user
entry, else return everything unchanged. -/
def collect_answer_logic (state : IState) (hist : List Msg) (user_input : String) :
    IState × List Msg :=
  let answer := pyStrip user_input
  if answer = "" then (state, hist)
  else ({ answers := state.answers ++ [answer] },
        hist ++ [{ role := "user", content := answer }])

/-- `check_completion_condition` (src/ui.py lines 78-87). -/
def check_completion_condition (state : IState) : String :=
  if questions.length ≤ state.answers.length then "generate_report"
  else "ask_question"

/-- The `formatted_answers` joined string (src/ui.py lines 99-101).
Indexing is total here via `getD`; within reachable sessions
`answers.length ≤ questions.length`, matching the source indexing. -/
def formatted_answers (answers : List String) : String :=
  String.intercalate "\n" ((List.range answers.length).map (fun i =>
    "Q" ++ toString (i + 1) ++ ": " ++ questions.getD i "" ++ "\nA" ++
      toString (i + 1) ++ ": " ++ answers.getD i ""))

/-- The prompt f-string (src/ui.py lines 102-115), verbatim. -/
def report_prompt (answers : List String) : String :=
  "\nYou are an experienced HR specialist responsible for evaluating job candidates after structured interviews. Below are the candidate\x27s responses to a series of interview questions. Your task is to write a well-structured, formal 5-paragraph evaluation report. This report should reflect the candidate\x27s communication skills, professional experience, critical thinking, and cultural fit for the role.\n\nPlease ensure the report includes:\n\n1. **Introduction** — Briefly introduce the candidate and the interview context.\n2. **Strengths** — Highlight key strengths observed from the responses.\n3. **Weaknesses or Areas for Improvement** — Mention any concerns or gaps noted during the interview.\n4. **Overall Impression** — Summarize how the candidate presented themselves professionally.\n5. **Recommendation** — Conclude with your recommendation on the candidate’s suitability for the role (e.g., move forward to next round, strong hire, needs more evaluation, etc.).\n\nInterview Responses:\n" ++ formatted_answers answers ++ "\n"

/-- `generate_report_logic` (src/ui.py lines 91-123).  `invoke` is the
external model call; `.error e` models a raised exception whose string
form is `e`, caught by the `try/except`. -/
def generate_report_logic (invoke : String → Except String String)
    (state : IState) (hist : List Msg) : IState × List Msg :=
  if state.answers = [] then
    (state, hist ++
      [{ role := "bot", content := "No answers collected. Cannot generate report." }])
  else
    match invoke (report_prompt state.answers) with
    | .ok report_content =>
        (state, hist ++
          [{ role := "bot", content := "### Final Evaluation Report:\n" ++ report_content }])
    | .error e =>
        (state, hist ++
          [{ role := "bot", content := "Error generating report: " ++ e }])

/-- Whole-session state: `st.session_state` fields
(src/ui.py lines 30-39). -/
structure UIState where
  graph_state : IState
  chat_history : List Msg
  interview_complete : Bool
  report_generated : Bool
  interview_started : Bool
deriving DecidableEq

/-- Initial session state (src/ui.py lines 30-39). -/
def initialUI : UIState :=
  { graph_state := { answers := [] }, chat_history := [],
    interview_complete := false, report_generated := false,
    interview_started := false }

/-- First-render initialization (src/ui.py lines 174-177). -/
def startStep (u : UIState) : UIState :=
  let r := ask_question_logic u.graph_state u.chat_history
  { u with interview_started := true, graph_state := r.1, chat_history := r.2 }

/-- Answer submission while in the `ask_question` phase
(src/ui.py lines 194-203): collect the answer, then immediately ask the
next question. -/
def answerStep (u : UIState) (input : String) : UIState :=
  let r := collect_answer_logic u.graph_state u.chat_history input
  let r2 := ask_question_logic r.1 r.2
  { u with graph_state := r2.1, chat_history := r2.2 }

/-- Report generation (src/ui.py lines 205-215): set `report_generated`,
run `generate_report_logic`, set `interview_complete`. -/
def reportStep (invoke : String → Except String String) (u : UIState) : UIState :=
  let r := generate_report_logic invoke u.graph_state u.chat_history
  { graph_state := r.1, chat_history := r.2,
    interview_complete := true, report_generated := true,
    interview_started := u.interview_started }

/-- The `Start New Interview` reset button (src/ui.py lines 227-240). -/
def resetStep (_u : UIState) : UIState := initialUI

/-- Session states reachable under the UI flow: the initial state, the
first-render initialization, answer submission guarded by the
`ask_question` phase and truthiness of the input, the guarded report
phase, and reset. -/
inductive Reachable (invoke : String → Except String String) : UIState → Prop where
  | init : Reachable invoke initialUI
  | start {u : UIState} : Reachable invoke u → u.interview_started = false →
      u.interview_complete = false → Reachable invoke (startStep u)
  | answer {u : UIState} (input : String) : Reachable invoke u → input ≠ "" →
      check_completion_condition u.graph_state = "ask_question" →
      Reachable invoke (answerStep u input)
  | report {u : UIState} : Reachable invoke u →
      check_completion_condition u.graph_state = "generate_report" →
      u.report_generated = false → Reachable invoke (reportStep invoke u)
  | reset {u : UIState} : Reachable invoke u → Reachable invoke (resetStep u)

/- ### Helper lemmas -/

theorem questions_length : questions.length = 10 := rfl

theorem ask_question_logic_fst (s : IState) (h : List Msg) :
    (ask_question_logic s h).1 = s := by
  unfold ask_question_logic
  dsimp only
  split
  · split <;> rfl
  · rfl

theorem generate_report_logic_fst (invoke : String → Except String String)
    (s : IState) (h : List Msg) : (generate_report_logic invoke s h).1 = s := by
  unfold generate_report_logic
  split
  · rfl
  · split <;> rfl

theorem collect_answer_logic_len (s : IState) (h : List Msg) (input : String) :
    (collect_answer_logic s h input).1.answers.length ≤ s.answers.length + 1 := by
  unfold collect_answer_logic
  dsimp only
  split
  · exact Nat.le_succ _
  · simp

theorem check_ask_lt {s : IState}
    (h : check_completion_condition s = "ask_question") :
    s.answers.length < 10 := by
  unfold check_completion_condition at h
  rw [questions_length] at h
  split at h
  · exact absurd h (by decide)
  · omega

/- ### Claims -/

/-- Claim C1: every session state reachable under the UI step relation has
at most 10 collected answers, and never more answers than there are fixed
questions. -/
theorem C1_answers_bounded (invoke : String → Except String String)
    (u : UIState) (h : Reachable invoke u) :
    u.graph_state.answers.length ≤ 10 ∧
      u.graph_state.answers.length ≤ questions.length := by
  rw [questions_length, and_self]
  induction h with
  | init => simp [initialUI]
  | start _ _ _ ih =>
      simpa [startStep, ask_question_logic_fst] using ih
  | @answer v input _ _ hphase _ =>
      have hlt := check_ask_lt hphase
      have hcol := collect_answer_logic_len v.graph_state v.chat_history input
      simp only [answerStep, ask_question_logic_fst]
      omega
  | report _ _ _ ih =>
      simpa [reportStep, generate_report_logic_fst] using ih
  | reset _ => simp [resetStep, initialUI]

/-- Claim C1 witness: the invariant holds at the concrete initial state. -/
theorem C1_answers_bounded_witness :
    initialUI.graph_state.answers.length ≤ 10 :=
  (C1_answers_bounded (fun _ => .error "") initialUI Reachable.init).1

/-- Claim C2: `collect_answer_logic` trims the input; if the trimmed text is
non-empty it appends it to `answers` and appends one user chat entry with
that text, otherwise it leaves state and history unchanged, with no error
surfaced (the function is total). -/
theorem C2_collect_answer_spec (s : IState) (h : List Msg) (input : String) :
    collect_answer_logic s h input =
      if pyStrip input = "" then (s, h)
      else ({ answers := s.answers ++ [pyStrip input] },
            h ++ [{ role := "user", content := pyStrip input }]) := rfl

/-- Claim C3: `check_completion_condition` depends only on the answer
count: it returns `"ask_question"` when fewer than 10 answers are
collected and `"generate_report"` otherwise. -/
theorem C3_check_completion_spec (s : IState) :
    check_completion_condition s =
      if s.answers.length < 10 then "ask_question" else "generate_report" := by
  unfold check_completion_condition
  rw [questions_length]
  rcases Nat.lt_or_ge s.answers.length 10 with h | h
  · rw [if_neg (by omega), if_pos h]
  · rw [if_pos h, if_neg (by omega)]

/-- Claim C10: `collect_answer_logic` itself imposes no upper bound: at a
state that already has 10 answers, a non-blank submission yields 11
answers; only the surrounding phase guard (which maps this state to
`"generate_report"`, not `"ask_question"`) keeps the UI from reaching
this. -/
theorem C10_collect_no_bound (s : IState) (hist : List Msg) (input : String)
    (hlen : s.answers.length = 10) (hne : pyStrip input ≠ "") :
    (collect_answer_logic s hist input).1.answers.length = 11 ∧
      check_completion_condition s = "generate_report" := by
  constructor
  · unfold collect_answer_logic
    dsimp only
    rw [if_neg hne]
    simp [hlen]
  · unfold check_completion_condition
    rw [questions_length, if_pos (by omega)]

/-- Claim C10 witness: a concrete 10-answer state and non-blank input. -/
theorem C10_collect_no_bound_witness :
    (collect_answer_logic { answers := List.replicate 10 "x" } [] "y").1.answers.length = 11 :=
  (C10_collect_no_bound { answers := List.replicate 10 "x" } [] "y"
    (by decide) (by decide)).1

/-- Claim C9: the reset action restores empty answers, an empty chat
history, and all three flags to `false`, regardless of the prior state. -/
theorem C9_reset_restores (u : UIState) :
    resetStep u =
      { graph_state := { answers := [] }, chat_history := [],
        interview_complete := false, report_generated := false,
        interview_started := false } := rfl

/-- Claim C7: with an empty answers list, `generate_report_logic` appends
the `"No answers collected. Cannot generate report."` bot entry and
returns the state unchanged; the result does not depend on `invoke`,
so the external model is not called. -/
theorem C7_report_empty_answers (invoke : String → Except String String)
    (s : IState) (hist : List Msg) (h : s.answers = []) :
    generate_report_logic invoke s hist =
      (s, hist ++
        [{ role := "bot", content := "No answers collected. Cannot generate report." }]) := by
  unfold generate_report_logic
  rw [if_pos h]

/-- Claim C7 witness: concrete empty-answers invocation. -/
theorem C7_report_empty_answers_witness :
    generate_report_logic (fun _ => .ok "IGNORED") { answers := [] } [] =
      ({ answers := [] },
       [{ role := "bot", content := "No answers collected. Cannot generate report." }]) := by
  have h := C7_report_empty_answers (fun _ => .ok "IGNORED")
    { answers := [] } [] rfl
  simpa using h

theorem myEndsWith_append (a b : String) : myEndsWith (a ++ b) b = true := by
  simp only [myEndsWith, decide_eq_true_eq]
  exact ⟨a.data, rfl⟩

theorem dupQuestion_concat_self (hist : List Msg) (pre q : String) :
    dupQuestion (hist ++ [{ role := "bot", content := pre ++ q }]) q = true := by
  unfold dupQuestion
  rw [List.getLast?_concat]
  simp [myEndsWith_append]

/-- Claim C5: `ask_question_logic` leaves the state (hence `answers`)
unchanged, and is idempotent for a fixed answer count: running it a second
time on its own output appends nothing. -/
theorem C5_ask_question_idempotent (s : IState) (hist : List Msg) :
    (ask_question_logic s hist).1 = s ∧
      ask_question_logic (ask_question_logic s hist).1 (ask_question_logic s hist).2 =
        ask_question_logic s hist := by
  refine ⟨ask_question_logic_fst s hist, ?_⟩
  rw [ask_question_logic_fst]
  by_cases hn : s.answers.length < questions.length
  · by_cases hdup : dupQuestion hist (questions.getD s.answers.length "") = true
    · have h1 : ask_question_logic s hist = (s, hist) := by
        unfold ask_question_logic
        rw [if_pos hn, if_pos hdup]
      rw [h1]
      exact h1
    · have h1 : ask_question_logic s hist =
          (s, hist ++
            [{ role := "bot",
               content := "**Q" ++ toString (s.answers.length + 1) ++ ":** " ++
                 questions.getD s.answers.length "" }]) := by
        unfold ask_question_logic
        rw [if_pos hn, if_neg hdup]
      rw [h1]
      unfold ask_question_logic
      rw [if_pos hn, if_pos (dupQuestion_concat_self hist _ _)]
  · have h1 : ask_question_logic s hist = (s, hist) := by
      unfold ask_question_logic
      rw [if_neg hn]
    rw [h1]
    exact h1

/-- Claim C4 counterexample: the first bot question entry has content
`**Q1:** What is your name?`, which is not the first fixed question text
verbatim. -/
theorem C4_not_verbatim_counterexample :
    (ask_question_logic { answers := [] } []).2 =
      [{ role := "bot", content := "**Q1:** What is your name?" }] ∧
      ("**Q1:** What is your name?" : String) ≠ "What is your name?" := by
  constructor
  · rfl
  · decide

/-- Claim C4 (amended): when a bot question entry is appended for answer
count `n < 10`, its content is `**Q{n+1}:** ` followed by the `n+1`-st
fixed question text, so it ends with (but does not equal) the question
text verbatim. -/
theorem C4_question_content (s : IState) (hist : List Msg)
    (hn : s.answers.length < questions.length)
    (hdup : dupQuestion hist (questions.getD s.answers.length "") = false) :
    (ask_question_logic s hist).2 =
      hist ++
        [{ role := "bot",
           content := "**Q" ++ toString (s.answers.length + 1) ++ ":** " ++
             questions.getD s.answers.length "" }] ∧
      myEndsWith
        ("**Q" ++ toString (s.answers.length + 1) ++ ":** " ++
          questions.getD s.answers.length "")
        (questions.getD s.answers.length "") = true := by
  constructor
  · unfold ask_question_logic
    rw [if_pos hn, if_neg (by rw [hdup]; exact Bool.false_ne_true)]
  · exact myEndsWith_append _ _

/-- Claim C4 witness: the amended content equation at the empty session. -/
theorem C4_question_content_witness :
    (ask_question_logic { answers := [] } []).2 =
      [{ role := "bot", content := "**Q1:** What is your name?" }] := by
  have h := C4_question_content { answers := [] } [] (by decide) (by decide)
  simpa using h.1

/-- Claim C6: when the external call raises (modelled by `invoke` returning
`.error e`), the report step appends exactly one new chat entry whose
content contains the error string, leaves the interview state unchanged,
and still sets `report_generated` and `interview_complete` to `true`. -/
theorem C6_report_error (invoke : String → Except String String)
    (u : UIState) (e : String)
    (hne : u.graph_state.answers ≠ [])
    (herr : invoke (report_prompt u.graph_state.answers) = .error e) :
    reportStep invoke u =
      { graph_state := u.graph_state,
        chat_history := u.chat_history ++
          [{ role := "bot", content := "Error generating report: " ++ e }],
        interview_complete := true, report_generated := true,
        interview_started := u.interview_started } ∧
      containsStr ("Error generating report: " ++ e) e = true := by
  constructor
  · unfold reportStep generate_report_logic
    rw [if_neg hne, herr]
  · simp only [containsStr, decide_eq_true_eq]
    exact ⟨("Error generating report: ").data, [], by simp⟩

/-- Claim C6 witness: a concrete failing call on a one-answer session. -/
theorem C6_report_error_witness :
    (reportStep (fun _ => .error "boom")
        { graph_state := { answers := ["a"] }, chat_history := [],
          interview_complete := false, report_generated := false,
          interview_started := true }).chat_history =
      [{ role := "bot", content := "Error generating report: boom" }] := by
  have h := C6_report_error (fun _ => .error "boom")
    { graph_state := { answers := ["a"] }, chat_history := [],
      interview_complete := false, report_generated := false,
      interview_started := true } "boom" (by decide) rfl
  rw [h.1]
  rfl

set_option maxRecDepth 100000

/-- Claim C8: on the spec's ten concrete answers, the generated prompt
contains the five section-header instructions and all ten Q/A pairs in
order, and with the external call stubbed to return `REPORT_X` the chat
history gains one entry containing `REPORT_X`. -/
theorem C8_report_concrete :
    containsInOrder (report_prompt demoAnswers)
      ["1. **Introduction**",
       "2. **Strengths**",
       "3. **Weaknesses or Areas for Improvement**",
       "4. **Overall Impression**",
       "5. **Recommendation**",
       "Q1: What is your name?\nA1: Alex",
       "Q2: What is your professional background?\nA2: Engineer",
       "Q3: What are your technical skills?\nA3: Python",
       "Q4: What are your strengths?\nA4: Fast learner",
       "Q5: What are your weaknesses?\nA5: Impatient",
       "Q6: Describe a challenging project you completed.\nA6: Migrated a DB under deadline",
       "Q7: What are your career goals?\nA7: Lead a team",
       "Q8: How do you handle stress?\nA8: Exercise",
       "Q9: How do you work in a team?\nA9: Listen first",
       "Q10: Why should we hire you?\nA10: I deliver"] = true ∧
    (generate_report_logic (fun _ => .ok "REPORT_X") { answers := demoAnswers } []).2 =
      [{ role := "bot", content := "### Final Evaluation Report:\nREPORT_X" }] ∧
    containsStr "### Final Evaluation Report:\nREPORT_X" "REPORT_X" = true := by
  refine ⟨by decide, by rfl, by decide⟩

end HRBot
